import Mathlib

/-!
Verification development for the Mooncake shared-memory arena allocator.

The definitions below are a shallow embedding of the C++ sources:
  - ShmArena and ShmArenaPoolManager from
    mooncake-transfer-engine/tent/src/transport/shm (header shm_arena.h and
    the implementation file), modelled sequentially: size_t and uint64_t
    arithmetic is natural-number arithmetic reduced mod 2^64 exactly where
    the C code wraps, pointers are numeric addresses (0 models nullptr),
    and the atomic fetch_add / fetch_sub / CAS sequences of a single call
    are taken in program order.  Syscall-success paths are modelled (the
    mmap result address is a parameter); syscall failures are out of scope
    of the claims treated here.
  - MmapArena from mooncake-store/src/mmap_arena.cpp (the current,
    overflow-checked revision that matches mmap_arena.h), same conventions.
-/

namespace Mooncake

/-- Word size of size_t and uint64_t: 2 to the power 64. -/
def W : Nat := 2 ^ 64

/-- Bitwise NOT of a 64-bit value x, as on C unsigned arithmetic. -/
def cNot64 (x : Nat) : Nat := (W - 1) - x % W

/-- Wrapping 64-bit subtraction a - b, as on C unsigned arithmetic. -/
def cSub64 (a b : Nat) : Nat := (a % W + (W - b % W)) % W

/-- C expression (size + alignment - 1) & ~(alignment - 1) evaluated in
size_t arithmetic; this is ShmArena::alignUp from shm_arena.h and the
unchecked rounding step of the arena allocators.  The two inner
subtractions wrap, the sum wraps, and the AND clears the low bits of the
wrapped sum. -/
def alignUp (size alignment : Nat) : Nat :=
  Nat.land (cSub64 (size + alignment) 1) (cNot64 (cSub64 alignment 1))

/-- Clearing the low k bits of x (AND with the 64-bit complement of
2 to the k minus 1) rounds x down to a multiple of 2 to the k. -/
theorem land_highmask (k : Nat) (hk : k ≤ 64) (x : Nat) (hx : x < W) :
    Nat.land x (W - 2 ^ k) = 2 ^ k * (x / 2 ^ k) := by
  have hsplit : W - 2 ^ k = 2 ^ k * (2 ^ (64 - k) - 1) := by
    have hpow : 2 ^ k * 2 ^ (64 - k) = W := by
      rw [← pow_add]
      simp [W, Nat.add_sub_cancel' hk]
    have hpos : 0 < 2 ^ (64 - k) := Nat.pos_pow_of_pos _ (by norm_num)
    have : 2 ^ k * (2 ^ (64 - k) - 1) + 2 ^ k = W := by
      rw [← Nat.mul_succ]
      rw [Nat.succ_eq_add_one, Nat.sub_add_cancel hpos]
      exact hpow
    omega
  rw [hsplit]
  apply Nat.eq_of_testBit_eq
  intro i
  have hdiv : x / 2 ^ k = x >>> k := (Nat.shiftRight_eq_div_pow x k).symm
  rw [show Nat.land x (2 ^ k * (2 ^ (64 - k) - 1)) =
        x &&& (2 ^ k * (2 ^ (64 - k) - 1)) from rfl]
  rw [Nat.testBit_and, Nat.testBit_mul_pow_two, Nat.testBit_mul_pow_two,
    Nat.testBit_two_pow_sub_one, hdiv, Nat.testBit_shiftRight]
  by_cases hik : k ≤ i
  · by_cases hi64 : i < 64
    · have h1 : i - k < 64 - k := by omega
      have h2 : k + (i - k) = i := by omega
      simp [hik, h1, h2]
    · have h1 : ¬(i - k < 64 - k) := by omega
      have h2 : k + (i - k) = i := by omega
      have hxi : x.testBit i = false := by
        apply Nat.testBit_lt_two_pow
        calc x < W := hx
          _ = 2 ^ 64 := rfl
          _ ≤ 2 ^ i := Nat.pow_le_pow_right (by norm_num) (by omega)
      simp [hik, h1, h2, hxi]
  · simp [hik]

/-- On power-of-two alignments below the word size, alignUp computes the
masked rounding of the wrapped sum size + alignment - 1. -/
theorem alignUp_eq (size k : Nat) (hk : k ≤ 63) :
    alignUp size (2 ^ k) =
      2 ^ k * (((size + 2 ^ k - 1) % W) / 2 ^ k) := by
  have ha1 : (1 : Nat) ≤ 2 ^ k := Nat.one_le_two_pow
  have haW : 2 ^ k < 2 ^ 64 := by
    have : (2 : Nat) ^ k ≤ 2 ^ 63 := Nat.pow_le_pow_right (by norm_num) hk
    have h63 : (2 : Nat) ^ 63 < 2 ^ 64 := by norm_num
    omega
  have hWpos : 0 < W := by simp [W]
  have hsub1 : cSub64 (2 ^ k) 1 = 2 ^ k - 1 := by
    simp only [cSub64, W]
    omega
  have hnot : cNot64 (2 ^ k - 1) = W - 2 ^ k := by
    simp only [cNot64, W]
    omega
  have hsum : cSub64 (size + 2 ^ k) 1 = (size + 2 ^ k - 1) % W := by
    simp only [cSub64, W]
    omega
  rw [alignUp, hsub1, hnot, hsum]
  exact land_highmask k (by omega) _ (Nat.mod_lt _ hWpos)

/-- The alignUp result is below the word size (power-of-two alignments). -/
theorem alignUp_lt (size k : Nat) (hk : k ≤ 63) : alignUp size (2 ^ k) < W := by
  rw [alignUp_eq size k hk]
  have h := Nat.mod_lt (size + 2 ^ k - 1) (show 0 < W by simp [W])
  calc 2 ^ k * (((size + 2 ^ k - 1) % W) / 2 ^ k)
      ≤ (size + 2 ^ k - 1) % W := Nat.mul_div_le _ _
    _ < W := h

/-- The alignUp result is a multiple of the (power-of-two) alignment. -/
theorem alignUp_dvd (size k : Nat) (hk : k ≤ 63) :
    2 ^ k ∣ alignUp size (2 ^ k) := by
  rw [alignUp_eq size k hk]
  exact Dvd.intro _ rfl

/-- When the sum size + alignment - 1 does not wrap, alignUp rounds up:
the result is at least the requested size. -/
theorem alignUp_ge (size k : Nat) (hk : k ≤ 63)
    (hnw : size + 2 ^ k - 1 < W) : size ≤ alignUp size (2 ^ k) := by
  rw [alignUp_eq size k hk, Nat.mod_eq_of_lt hnw]
  have hpos : 0 < 2 ^ k := Nat.pos_pow_of_pos _ (by norm_num)
  have h := Nat.div_add_mod (size + 2 ^ k - 1) (2 ^ k)
  have hmod := Nat.mod_lt (size + 2 ^ k - 1) hpos
  omega

/-- Error codes of tent Status, as used by the SHM arena sources:
Status::OK, Status::InvalidArgument, Status::InternalError and the test
file comparisons against Status::Code::kInvalidArgument and
Status::Code::kInternalError. -/
inductive Code where
  | kOk : Code
  | kInvalidArgument : Code
  | kInternalError : Code
deriving DecidableEq, Repr

/-- Status value: an error code together with a message string. -/
structure Status where
  code : Code
  message : String
deriving DecidableEq, Repr

/-- Message text used by the sources. -/
def msgAlreadyInit : String := "Arena already initialized"

/-- Message text used by the sources. -/
def msgNotInit : String := "Arena not initialized"

/-- Message text used by the sources. -/
def msgZeroAlloc : String := "Cannot allocate 0 bytes"

/-- Message text used by the sources. -/
def msgExhausted : String := "Arena pool exhausted"

/-- Message text used by the sources. -/
def msgOutOfBounds : String := "Offset out of bounds"

/-- Message text used by the sources. -/
def msgSizeMismatch : String := "Arena size mismatch"

/-- Status::OK(). -/
def stOK : Status := Status.mk Code.kOk ""

/-- Status returned when initialize or attach finds the arena already
initialized: Status::InvalidArgument with the already-initialized text. -/
def stAlreadyInit : Status := Status.mk Code.kInvalidArgument msgAlreadyInit

/-- ShmArena::Config from shm_arena.h.  The stem field is the SHM object
name stem that the source calls its name-building string field. -/
structure Config where
  pool_size : Nat
  stem : String
  use_huge_pages : Bool
  alignment : Nat
  prefault_pages : Bool
deriving DecidableEq, Repr

/-- Default name stem of Config in shm_arena.h. -/
def defaultStem : String := "/mooncake_arena_"

/-- Default-constructed ShmArena::Config (64 GB pool, 64-byte alignment). -/
def defaultConfig : Config :=
  Config.mk 68719476736 defaultStem false 64 false

/-- ShmArena::Allocation handle from shm_arena.h: local address, offset
from base, aligned size, producing arena id.  Address 0 models nullptr. -/
structure Allocation where
  addr : Nat
  offset : Nat
  size : Nat
  arena_id : Nat
deriving DecidableEq, Repr

/-- Process-local state of one ShmArena instance (the member fields of the
class in shm_arena.h; the file descriptor is not modelled). -/
structure ShmArena where
  initialized : Bool
  is_owner : Bool
  shm_name : String
  pool_base : Nat
  pool_size : Nat
  alloc_cursor : Nat
  peak_allocated : Nat
  num_allocations : Nat
  num_failed_allocs : Nat
  config : Config
  arena_id : Nat
deriving DecidableEq, Repr

/-- Freshly constructed ShmArena with the given arena id (the constructor
draws the id from a global counter). -/
def mkArena (id : Nat) : ShmArena :=
  ShmArena.mk false false "" 0 0 0 0 0 0 defaultConfig id

/-- Separator used between the pid and the arena id in SHM names. -/
def sepStr : String := "_"

/-- ShmArena::initialize on the syscall-success path: the guard, the name
construction, publication of the mapping at mmapBase, and the cursor and
counter resets.  pid models getpid(), mmapBase the address mmap returns. -/
def ShmArena.initArena (a : ShmArena) (config : Config) (pid : Nat)
    (mmapBase : Nat) : Status × ShmArena :=
  if a.initialized then (stAlreadyInit, a)
  else
    let name := config.stem ++ toString pid ++ sepStr ++ toString a.arena_id
    (stOK,
      ShmArena.mk true true name mmapBase config.pool_size 0 0 0 0 config
        a.arena_id)

/-- ShmArena::attach on the open-success path: the guard, the recording of
name and expected size, the fstat size verification against the actual
SHM object size shmSize, and the mapping at mmapBase. -/
def ShmArena.attach (a : ShmArena) (arena_name : String)
    (expected_size : Nat) (shmSize : Nat) (mmapBase : Nat) :
    Status × ShmArena :=
  if a.initialized then (stAlreadyInit, a)
  else
    let a1 := { a with shm_name := arena_name, pool_size := expected_size,
                       is_owner := false }
    if shmSize ≠ expected_size then
      (Status.mk Code.kInvalidArgument msgSizeMismatch, a1)
    else
      (stOK, { a1 with pool_base := mmapBase, initialized := true })

/-- ShmArena::allocate, sequential semantics of one call: the guards, the
alignUp of the size, the fetch_add of the cursor (wrapping), the capacity
check offset + aligned_size > pool_size in uint64 arithmetic, the
fetch_sub undo plus failure counter on the failing branch, and the stats
update plus handle construction on the success branch.  The Allocation
output parameter is only written on success, hence the Option. -/
def ShmArena.allocate (a : ShmArena) (size : Nat) :
    Status × ShmArena × Option Allocation :=
  if !a.initialized then
    (Status.mk Code.kInvalidArgument msgNotInit, a, none)
  else if size = 0 then
    (Status.mk Code.kInvalidArgument msgZeroAlloc, a, none)
  else
    let aligned_size := alignUp size a.config.alignment
    let offset := a.alloc_cursor
    let bumped := (offset + aligned_size) % W
    if a.pool_size < (offset + aligned_size) % W then
      (Status.mk Code.kInternalError msgExhausted,
        { a with alloc_cursor := cSub64 bumped aligned_size,
                 num_failed_allocs := a.num_failed_allocs + 1 }, none)
    else
      let addr := (a.pool_base + offset) % W
      (stOK,
        { a with alloc_cursor := bumped,
                 num_allocations := a.num_allocations + 1,
                 peak_allocated := max a.peak_allocated bumped },
        some (Allocation.mk addr offset aligned_size a.arena_id))

/-- ShmArena::isValidRange: offset + size <= pool_size, with the sum
computed in uint64 arithmetic (it wraps mod 2^64). -/
def ShmArena.isValidRange (a : ShmArena) (offset size : Nat) : Bool :=
  (offset + size) % W ≤ a.pool_size

/-- ShmArena::translateOffset: guard, bounds check, then base + offset.
The output address is only written on success, hence the Option. -/
def ShmArena.translateOffset (a : ShmArena) (offset size : Nat) :
    Status × Option Nat :=
  if !a.initialized then
    (Status.mk Code.kInvalidArgument msgNotInit, none)
  else if !(a.isValidRange offset size) then
    (Status.mk Code.kInvalidArgument msgOutOfBounds, none)
  else
    (stOK, some ((a.pool_base + offset) % W))

/-- ShmArena::getOffset: sentinel 2^64 - 1 (the uint64 cast of -1) when
the arena is not initialized, the address is null, or the address lies
outside [base, base + pool_size); otherwise addr - base. -/
def ShmArena.getOffset (a : ShmArena) (addr : Nat) : Nat :=
  if !a.initialized ∨ addr = 0 then W - 1
  else if addr < a.pool_base ∨ a.pool_base + a.pool_size ≤ addr then W - 1
  else addr - a.pool_base

/-- Huge page size constant of mmap_arena.cpp: 2 MiB. -/
def HUGE_PAGE_SIZE : Nat := 2 * 1024 * 1024

/-- Helper safe_align_up of mmap_arena.cpp: checked rounding.  Returns
none when the alignment is zero or not a power of two, or when
size + alignment - 1 would overflow SIZE_MAX; otherwise the mask-rounded
value (no wrap can occur on the some branch). -/
def safe_align_up (size alignment : Nat) : Option Nat :=
  if size = 0 then some 0
  else if alignment = 0 ∨ Nat.land alignment (alignment - 1) ≠ 0 then none
  else if W - alignment < size then none
  else some (Nat.land (size + alignment - 1) (cNot64 (alignment - 1)))

/-- Process-local state of one MmapArena (member fields of mmap_arena.h;
the init mutex serializes initialize and is represented by the sequential
semantics of the model). -/
structure MmapArena where
  pool_base : Nat
  pool_size : Nat
  alignment : Nat
  alloc_cursor : Nat
  peak_allocated : Nat
  num_allocations : Nat
  num_failed_allocs : Nat
deriving DecidableEq, Repr

/-- Default-constructed MmapArena: null base, 64-byte alignment. -/
def mkMmapArena : MmapArena := MmapArena.mk 0 0 64 0 0 0 0

/-- MmapArena::initialize (the current overflow-checked revision), one
serialized call: input validation, the already-initialized guard, the
max with 64 for the effective default alignment, the checked 2 MiB
rounding of the pool size, and publication of the mapping.  mmapOk models
whether mmap (with or without huge pages) succeeded, mmapBase the
returned address; on mmap failure nothing is published. -/
def MmapArena.initPool (m : MmapArena) (pool_size alignment : Nat)
    (mmapOk : Bool) (mmapBase : Nat) : Bool × MmapArena :=
  if pool_size = 0 then (false, m)
  else if alignment ≠ 0 ∧ Nat.land alignment (alignment - 1) ≠ 0 then
    (false, m)
  else if m.pool_base ≠ 0 then (false, m)
  else
    let actual_alignment := max alignment 64
    match safe_align_up pool_size HUGE_PAGE_SIZE with
    | none => (false, m)
    | some aligned_pool_size =>
      if !mmapOk then (false, m)
      else
        (true, { m with alignment := actual_alignment,
                        pool_size := aligned_pool_size,
                        pool_base := mmapBase })

/-- Process-wide ShmArenaPoolManager state: the name-keyed registry.  A
handle (the shared_ptr identity of an arena) is modelled as the numeric
id drawn at creation time; store keeps the arena states behind the
handles.  All operations hold the manager mutex, so the sequential
semantics is the mutex-serialized one. -/
structure PoolManager where
  arenas : List (String × Nat)
  store : List (Nat × ShmArena)
  next_handle : Nat
deriving DecidableEq, Repr

/-- ShmArenaPoolManager::getOrCreateArena: under the mutex, return the
existing handle for the name, or construct a fresh arena, initialize it,
and insert it under the name. -/
def PoolManager.getOrCreateArena (m : PoolManager) (name : String)
    (config : Config) (pid mmapBase : Nat) :
    Status × PoolManager × Option Nat :=
  match m.arenas.lookup name with
  | some h => (stOK, m, some h)
  | none =>
    let h := m.next_handle
    let r := (mkArena h).initArena config pid mmapBase
    if r.1.code ≠ Code.kOk then (r.1, m, none)
    else
      (stOK,
        PoolManager.mk ((name, h) :: m.arenas) ((h, r.2) :: m.store) (h + 1),
        some h)

/-- ShmArenaPoolManager::attachArena: under the mutex, return the existing
handle for the name, or construct a fresh arena, attach it, and insert
it under the name. -/
def PoolManager.attachArena (m : PoolManager) (name : String)
    (expected_size : Nat) (shmSize mmapBase : Nat) :
    Status × PoolManager × Option Nat :=
  match m.arenas.lookup name with
  | some h => (stOK, m, some h)
  | none =>
    let h := m.next_handle
    let r := (mkArena h).attach name expected_size shmSize mmapBase
    if r.1.code ≠ Code.kOk then (r.1, m, none)
    else
      (stOK,
        PoolManager.mk ((name, h) :: m.arenas) ((h, r.2) :: m.store) (h + 1),
        some h)

/-- Fetch_add of s followed by fetch_sub of s restores a 64-bit cursor. -/
theorem cSub64_bump (c s : Nat) (hc : c < W) :
    cSub64 ((c + s) % W) s = c := by
  simp only [cSub64, W] at *
  omega

/-- Success form of safe_align_up at the 2 MiB huge page size: the result
is the requested size rounded up to the next 2 MiB multiple. -/
theorem safe_align_up_huge (size v : Nat)
    (h : safe_align_up size HUGE_PAGE_SIZE = some v) :
    v = ((size + HUGE_PAGE_SIZE - 1) / HUGE_PAGE_SIZE) * HUGE_PAGE_SIZE ∧
      size ≤ v ∧ v % HUGE_PAGE_SIZE = 0 := by
  have hH : HUGE_PAGE_SIZE = 2 ^ 21 := by decide
  by_cases hz : size = 0
  · subst hz
    simp [safe_align_up] at h
    subst h
    refine ⟨?_, Nat.zero_le _, by decide⟩
    decide
  · have hpow : ¬(HUGE_PAGE_SIZE = 0 ∨
        Nat.land HUGE_PAGE_SIZE (HUGE_PAGE_SIZE - 1) ≠ 0) := by decide
    by_cases hov : W - HUGE_PAGE_SIZE < size
    · simp [safe_align_up, hz, hpow, hov] at h
    · simp only [safe_align_up, if_neg hz, if_neg hpow, if_neg hov] at h
      have hx : size + HUGE_PAGE_SIZE - 1 < W := by
        simp only [W, HUGE_PAGE_SIZE] at *
        omega
      have hnot : cNot64 (HUGE_PAGE_SIZE - 1) = W - 2 ^ 21 := by decide
      rw [hnot, land_highmask 21 (by norm_num) _ hx] at h
      injection h with h
      subst h
      have hdm := Nat.div_add_mod (size + HUGE_PAGE_SIZE - 1) HUGE_PAGE_SIZE
      have hmlt : (size + HUGE_PAGE_SIZE - 1) % HUGE_PAGE_SIZE <
          HUGE_PAGE_SIZE := Nat.mod_lt _ (by decide)
      constructor
      · rw [hH]
        ring
      constructor
      · rw [hH] at hdm hmlt ⊢
        omega
      · rw [hH]
        simp [Nat.mul_mod_left, Nat.mul_comm]

/-- Concrete arena used by the C2 evaluation: initialized owner arena,
base 4096, pool size 1 MiB, default configuration, empty cursor. -/
def arenaC2 : ShmArena :=
  ShmArena.mk true true "" 4096 1048576 0 0 0 0 defaultConfig 0

/-- C2: the claim states that allocate(SIZE_MAX) fails with OutOfMemory,
the cursor is unchanged, and every align_up and sum is overflow-checked.
The code is not overflow-safe: alignUp wraps SIZE_MAX + 63 mod 2^64 to 62
and masks it to 0, so allocate(SIZE_MAX) returns Status::OK with a
zero-sized allocation, the failure counter does not move, and the success
counter increments.  This theorem evaluates the embedded code at the
failing input and exhibits that behavior. -/
theorem c2_size_max_alloc_succeeds :
    (arenaC2.allocate (W - 1)).1 = stOK ∧
    (arenaC2.allocate (W - 1)).2.2 = some (Allocation.mk 4096 0 0 0) ∧
    (arenaC2.allocate (W - 1)).2.1.alloc_cursor = 0 ∧
    (arenaC2.allocate (W - 1)).2.1.num_failed_allocs = 0 ∧
    (arenaC2.allocate (W - 1)).2.1.num_allocations = 1 := by
  refine ⟨?_, ?_, ?_, ?_, ?_⟩ <;> decide

/-- Concrete arena used by the C3 counterexample: initialized, base 4096,
pool size 1024. -/
def arenaC3 : ShmArena :=
  ShmArena.mk true true "" 4096 1024 0 0 0 0 defaultConfig 0

/-- C3 counterexample: translate_offset(pool_size, 0) does not fail; it
succeeds, because the check offset + size <= pool_size is inclusive.  And
the check is not overflow-safe: the pair (2^64 - 1, 1), whose true sum
2^64 exceeds the pool size, wraps to 0 and is accepted. -/
theorem c3_translate_past_end_cex :
    (arenaC3.translateOffset arenaC3.pool_size 0).1 = stOK ∧
    (arenaC3.translateOffset (W - 1) 1).1 = stOK := by
  refine ⟨?_, ?_⟩ <;> decide

/-- C3 amended: translate_offset(pool_size, 0) succeeds (zero-length
past-the-end ranges pass the inclusive check), translate_offset of
(pool_size - 1, 1) succeeds, and the bounds check compares the wrapped
sum (offset + size) mod 2^64 against pool_size, so every pair whose true
sum exceeds pool_size without wrapping past 2^64 is rejected. -/
theorem c3_translate_bounds_amended (a : ShmArena)
    (hinit : a.initialized = true) (hpool : 0 < a.pool_size)
    (hpw : a.pool_size < W) :
    (a.translateOffset a.pool_size 0).1 = stOK ∧
    (a.translateOffset (a.pool_size - 1) 1).1 = stOK ∧
    (∀ offset size, offset + size < W → a.pool_size < offset + size →
      (a.translateOffset offset size).1 =
        Status.mk Code.kInvalidArgument msgOutOfBounds) := by
  refine ⟨?_, ?_, ?_⟩
  · simp [ShmArena.translateOffset, ShmArena.isValidRange, hinit,
      Nat.mod_eq_of_lt hpw]
  · have h1 : (a.pool_size - 1 + 1) % W = a.pool_size := by
      rw [Nat.sub_add_cancel hpool]
      exact Nat.mod_eq_of_lt hpw
    simp [ShmArena.translateOffset, ShmArena.isValidRange, hinit, h1]
  · intro offset size hlt hgt
    have h2 : (offset + size) % W = offset + size := Nat.mod_eq_of_lt hlt
    simp [ShmArena.translateOffset, ShmArena.isValidRange, hinit, h2,
      Nat.not_le.mpr hgt]

/-- Witness for the amended C3 theorem at the concrete 1024-byte arena. -/
theorem c3_translate_bounds_amended_witness :
    arenaC3.initialized = true ∧ 0 < arenaC3.pool_size ∧
    ((arenaC3.translateOffset arenaC3.pool_size 0).1 = stOK ∧
      (arenaC3.translateOffset (arenaC3.pool_size - 1) 1).1 = stOK ∧
      (∀ offset size, offset + size < W → arenaC3.pool_size < offset + size →
        (arenaC3.translateOffset offset size).1 =
          Status.mk Code.kInvalidArgument msgOutOfBounds)) :=
  ⟨by decide, by decide,
    c3_translate_bounds_amended arenaC3 (by decide) (by decide) (by decide)⟩

/-- Concrete arena used by the C4 counterexample: initialized, base 4096,
pool size 1024. -/
def arenaC4 : ShmArena :=
  ShmArena.mk true true "" 4096 1024 0 0 0 0 defaultConfig 0

/-- C4 counterexample: the pair (pool_size, 0) is accepted by
translate_offset (yielding the one-past-the-end address 5120), but
offset_of maps that address to the sentinel 2^64 - 1, not back to the
offset pool_size = 1024.  So the round trip fails for an accepted pair. -/
theorem c4_roundtrip_cex :
    arenaC4.translateOffset 1024 0 = (stOK, some 5120) ∧
    arenaC4.getOffset 5120 = W - 1 ∧ W - 1 ≠ 1024 := by
  refine ⟨?_, ?_, ?_⟩ <;> decide

/-- C4 amended: for every accepted pair whose offset lies strictly inside
the pool (offset < pool_size), on an arena with a non-null base whose
region fits the address space, the returned address maps back under
offset_of to the same offset. -/
theorem c4_roundtrip_amended (a : ShmArena) (offset size : Nat)
    (hinit : a.initialized = true) (hbase : 0 < a.pool_base)
    (hfit : a.pool_base + a.pool_size ≤ W) (hoff : offset < a.pool_size)
    (hacc : (a.translateOffset offset size).1.code = Code.kOk) :
    a.translateOffset offset size = (stOK, some (a.pool_base + offset)) ∧
    a.getOffset (a.pool_base + offset) = offset := by
  have hval : a.isValidRange offset size = true := by
    by_contra hval
    simp [ShmArena.translateOffset, hinit, hval] at hacc
  have haddr : (a.pool_base + offset) % W = a.pool_base + offset := by
    apply Nat.mod_eq_of_lt
    omega
  constructor
  · simp [ShmArena.translateOffset, hinit, hval, haddr]
  · have hc1 : ¬(a.pool_base = 0 ∧ offset = 0) := by omega
    have hc2 : ¬(a.pool_size ≤ offset) := by omega
    simp [ShmArena.getOffset, hinit, hc1, hc2]

/-- Witness for the amended C4 theorem: offset 512, size 256 on the
concrete 1024-byte arena. -/
theorem c4_roundtrip_amended_witness :
    (arenaC4.translateOffset 512 256).1.code = Code.kOk ∧
    (arenaC4.translateOffset 512 256 = (stOK, some (arenaC4.pool_base + 512)) ∧
      arenaC4.getOffset (arenaC4.pool_base + 512) = 512) :=
  ⟨by decide,
    c4_roundtrip_amended arenaC4 512 256 (by decide) (by decide) (by decide)
      (by decide) (by decide)⟩

/-- Configuration used by the C5 counterexample: requested pool size of
1 MiB, all other fields at their defaults. -/
def cfgC5 : Config := Config.mk 1048576 defaultStem false 64 false

/-- C5 counterexample: ShmArena::initialize accepts a 1 MiB pool size and
adopts it unchanged; the effective pool size is 1 MiB, not the 2 MiB
multiple the claim asserts.  ShmArena performs no rounding at all. -/
theorem c5_no_rounding_cex :
    ((mkArena 0).initArena cfgC5 7 4096).1 = stOK ∧
    ((mkArena 0).initArena cfgC5 7 4096).2.pool_size = 1048576 ∧
    (1048576 : Nat) ≠
      ((1048576 + HUGE_PAGE_SIZE - 1) / HUGE_PAGE_SIZE) * HUGE_PAGE_SIZE := by
  refine ⟨?_, ?_, ?_⟩ <;> decide

/-- C5 amended: the 2 MiB rounding lives in MmapArena::initialize, not in
ShmArena::initialize.  Every configuration MmapArena::initialize accepts
yields an effective pool size equal to the requested size rounded up to a
2 MiB multiple (so 1 MiB becomes 2 MiB), and requested sizes for which
the rounding would overflow SIZE_MAX are rejected.  ShmArena::initialize
adopts the requested size unchanged. -/
theorem c5_mmap_rounding_amended (m : MmapArena) (pool_size alignment : Nat)
    (mmapOk : Bool) (mmapBase : Nat)
    (hok : (m.initPool pool_size alignment mmapOk mmapBase).1 = true) :
    (m.initPool pool_size alignment mmapOk mmapBase).2.pool_size =
      ((pool_size + HUGE_PAGE_SIZE - 1) / HUGE_PAGE_SIZE) * HUGE_PAGE_SIZE ∧
    pool_size ≤ (m.initPool pool_size alignment mmapOk mmapBase).2.pool_size ∧
    (m.initPool pool_size alignment mmapOk mmapBase).2.pool_size %
      HUGE_PAGE_SIZE = 0 ∧
    (∀ ps, W - HUGE_PAGE_SIZE < ps →
      (m.initPool ps alignment mmapOk mmapBase).1 = false) ∧
    (∀ a c pid b, (ShmArena.initArena a c pid b).2.pool_size =
      if a.initialized then a.pool_size else c.pool_size) := by
  by_cases h1 : pool_size = 0
  · simp [MmapArena.initPool, h1] at hok
  by_cases h2 : alignment ≠ 0 ∧ Nat.land alignment (alignment - 1) ≠ 0
  · simp [MmapArena.initPool, h1, h2] at hok
  by_cases h3 : m.pool_base ≠ 0
  · simp [MmapArena.initPool, h1, h2, h3] at hok
  cases hsa : safe_align_up pool_size HUGE_PAGE_SIZE with
  | none => simp [MmapArena.initPool, h1, h2, h3, hsa] at hok
  | some v =>
    by_cases hmm : mmapOk = true
    case neg =>
      have hmf : mmapOk = false := by
        cases mmapOk
        · rfl
        · exact absurd rfl hmm
      simp [MmapArena.initPool, h1, h2, h3, hsa, hmf] at hok
    case pos =>
      obtain ⟨hv, hle, hmod⟩ := safe_align_up_huge pool_size v hsa
      have hres : (m.initPool pool_size alignment mmapOk mmapBase).2 =
          { m with alignment := max alignment 64, pool_size := v,
                   pool_base := mmapBase } := by
        simp [MmapArena.initPool, h1, h2, h3, hsa, hmm]
      refine ⟨?_, ?_, ?_, ?_, ?_⟩
      · rw [hres, ← hv]
      · rw [hres]
        exact hle
      · rw [hres]
        exact hmod
      · intro ps hps
        have hps0 : ps ≠ 0 := by
          simp only [W, HUGE_PAGE_SIZE] at hps
          omega
        have hsa2 : safe_align_up ps HUGE_PAGE_SIZE = none := by
          have hpow : ¬(HUGE_PAGE_SIZE = 0 ∨
              Nat.land HUGE_PAGE_SIZE (HUGE_PAGE_SIZE - 1) ≠ 0) := by decide
          simp [safe_align_up, hps0, hpow, hps]
        simp [MmapArena.initPool, hps0, h2, h3, hsa2]
      · intro a c pid b
        by_cases hin : a.initialized <;>
          simp [ShmArena.initArena, hin]

/-- Witness for the amended C5 theorem: the default MmapArena accepting a
1 MiB request produces a 2 MiB pool. -/
theorem c5_mmap_rounding_amended_witness :
    (mkMmapArena.initPool 1048576 0 true 4096).1 = true ∧
    ((mkMmapArena.initPool 1048576 0 true 4096).2.pool_size =
        ((1048576 + HUGE_PAGE_SIZE - 1) / HUGE_PAGE_SIZE) * HUGE_PAGE_SIZE ∧
      1048576 ≤ (mkMmapArena.initPool 1048576 0 true 4096).2.pool_size ∧
      (mkMmapArena.initPool 1048576 0 true 4096).2.pool_size %
        HUGE_PAGE_SIZE = 0 ∧
      (∀ ps, W - HUGE_PAGE_SIZE < ps →
        (mkMmapArena.initPool ps 0 true 4096).1 = false) ∧
      (∀ a c pid b, (ShmArena.initArena a c pid b).2.pool_size =
        if a.initialized then a.pool_size else c.pool_size)) :=
  ⟨by decide, c5_mmap_rounding_amended mkMmapArena 1048576 0 true 4096
    (by decide)⟩

/-- Concrete arena used by the C7 witness: an initialized owner arena. -/
def arenaC7 : ShmArena :=
  ShmArena.mk true true "w" 4096 1024 64 64 1 0 defaultConfig 3

/-- C7: calling initialize or attach on an already-initialized arena
returns the already-initialized error (Status::InvalidArgument with the
already-initialized message, which the specification names the
AlreadyInitialized kind) and returns the arena state entirely unchanged:
name, base, pool size, cursor, and counters all keep their values because
the guard precedes every mutation. -/
theorem c7_double_initialize_rejected (a : ShmArena)
    (hinit : a.initialized = true) (c : Config) (pid mmapBase : Nat)
    (nm : String) (expected shmSize mb2 : Nat) :
    a.initArena c pid mmapBase = (stAlreadyInit, a) ∧
    a.attach nm expected shmSize mb2 = (stAlreadyInit, a) := by
  constructor
  · simp [ShmArena.initArena, hinit]
  · simp [ShmArena.attach, hinit]

/-- Witness for C7 at a concrete initialized arena. -/
theorem c7_double_initialize_rejected_witness :
    arenaC7.initialized = true ∧
    (arenaC7.initArena defaultConfig 7 8192 = (stAlreadyInit, arenaC7) ∧
      arenaC7.attach "x" 1024 1024 8192 = (stAlreadyInit, arenaC7)) :=
  ⟨by decide,
    c7_double_initialize_rejected arenaC7 (by decide) defaultConfig 7 8192
      "x" 1024 1024 8192⟩

/-- Shared inversion of a successful allocate call: it can only come from
the success branch, which fixes the resulting state and handle. -/
theorem allocate_ok_inv (a : ShmArena) (size : Nat)
    (hok : (a.allocate size).1.code = Code.kOk) :
    a.initialized = true ∧ size ≠ 0 ∧
    (a.alloc_cursor + alignUp size a.config.alignment) % W ≤ a.pool_size ∧
    a.allocate size =
      (stOK,
        { a with
          alloc_cursor := (a.alloc_cursor + alignUp size a.config.alignment) % W,
          num_allocations := a.num_allocations + 1,
          peak_allocated := max a.peak_allocated
            ((a.alloc_cursor + alignUp size a.config.alignment) % W) },
        some (Allocation.mk ((a.pool_base + a.alloc_cursor) % W) a.alloc_cursor
          (alignUp size a.config.alignment) a.arena_id)) := by
  cases hi : a.initialized with
  | false => simp [ShmArena.allocate, hi] at hok
  | true =>
    by_cases hsz : size = 0
    · simp [ShmArena.allocate, hi, hsz] at hok
    · by_cases hcap : a.pool_size <
          (a.alloc_cursor + alignUp size a.config.alignment) % W
      · simp [ShmArena.allocate, hi, hsz, hcap] at hok
      · refine ⟨rfl, hsz, Nat.not_lt.mp hcap, ?_⟩
        simp [ShmArena.allocate, hi, hsz, hcap]

/-- C1: when an allocation fails for lack of capacity, allocate returns
the pool-exhausted error, the fetch_sub undo restores the cursor to
exactly its pre-call value (sequential semantics of one call), the
failed-allocation counter increments by one, every other field is
untouched, and the arena stays usable: any subsequent request whose
aligned size still fits at the restored cursor succeeds. -/
theorem c1_oom_failure_is_clean (a : ShmArena) (size : Nat)
    (hinit : a.initialized = true) (hcur : a.alloc_cursor < W)
    (hsize : 0 < size)
    (hfail : a.pool_size <
      (a.alloc_cursor + alignUp size a.config.alignment) % W) :
    ∃ a1, a.allocate size =
        (Status.mk Code.kInternalError msgExhausted, a1, none) ∧
      a1.alloc_cursor = a.alloc_cursor ∧
      a1.num_failed_allocs = a.num_failed_allocs + 1 ∧
      a1.initialized = true ∧ a1.pool_size = a.pool_size ∧
      a1.pool_base = a.pool_base ∧
      a1.num_allocations = a.num_allocations ∧
      a1.peak_allocated = a.peak_allocated ∧
      a1.shm_name = a.shm_name ∧
      (∀ size2, 0 < size2 →
        (a.alloc_cursor + alignUp size2 a.config.alignment) % W ≤
          a.pool_size →
        (a1.allocate size2).1 = stOK) := by
  have hs0 : ¬size = 0 := by omega
  have hcs : cSub64 ((a.alloc_cursor + alignUp size a.config.alignment) % W)
      (alignUp size a.config.alignment) = a.alloc_cursor :=
    cSub64_bump _ _ hcur
  refine ⟨{ a with
      alloc_cursor := cSub64
        ((a.alloc_cursor + alignUp size a.config.alignment) % W)
        (alignUp size a.config.alignment),
      num_failed_allocs := a.num_failed_allocs + 1 },
    ?_, hcs, rfl, hinit, rfl, rfl, rfl, rfl, rfl, ?_⟩
  · simp [ShmArena.allocate, hinit, hs0, hfail]
  · intro size2 h2 hfit
    have hs2 : ¬size2 = 0 := by omega
    simp [ShmArena.allocate, hinit, hs2, hcs, Nat.not_lt.mpr hfit, stOK]

/-- Concrete arena for the C1 witness: 128-byte pool, alignment 64,
cursor already at 64, so a 128-byte request overshoots but a 1-byte
request still fits. -/
def arenaC1 : ShmArena :=
  ShmArena.mk true true "" 4096 128 64 64 1 0 defaultConfig 0

/-- Witness for C1: the concrete failing request and the subsequent
fitting request on the 128-byte arena. -/
theorem c1_oom_failure_is_clean_witness :
    arenaC1.pool_size <
      (arenaC1.alloc_cursor + alignUp 128 arenaC1.config.alignment) % W ∧
    (∃ a1, arenaC1.allocate 128 =
        (Status.mk Code.kInternalError msgExhausted, a1, none) ∧
      a1.alloc_cursor = arenaC1.alloc_cursor ∧
      a1.num_failed_allocs = arenaC1.num_failed_allocs + 1 ∧
      a1.initialized = true ∧ a1.pool_size = arenaC1.pool_size ∧
      a1.pool_base = arenaC1.pool_base ∧
      a1.num_allocations = arenaC1.num_allocations ∧
      a1.peak_allocated = arenaC1.peak_allocated ∧
      a1.shm_name = arenaC1.shm_name ∧
      (∀ size2, 0 < size2 →
        (arenaC1.alloc_cursor + alignUp size2 arenaC1.config.alignment) % W ≤
          arenaC1.pool_size →
        (a1.allocate size2).1 = stOK)) :=
  ⟨by decide,
    c1_oom_failure_is_clean arenaC1 128 (by decide) (by decide) (by decide)
      (by decide)⟩

/-- Concrete arena for the C6 counterexample: 4 KiB pool, alignment 64,
cursor at 64. -/
def arenaC6 : ShmArena :=
  ShmArena.mk true true "" 8192 4096 64 64 1 0 defaultConfig 0

/-- C6 counterexample: allocate(SIZE_MAX) succeeds (the unchecked alignUp
wraps to 0), and the recorded handle size 0 is smaller than the requested
size, violating the recorded-size-dominates-request part of the claim. -/
theorem c6_size_not_ge_request_cex :
    (arenaC6.allocate (W - 1)).1 = stOK ∧
    (arenaC6.allocate (W - 1)).2.2 = some (Allocation.mk 8256 64 0 0) ∧
    (0 : Nat) < W - 1 := by
  refine ⟨?_, ?_, ?_⟩ <;> decide

/-- C6 amended: for every successful allocation whose aligned-size
computation does not wrap past SIZE_MAX (requested size at most
2^64 - alignment), the size recorded in the handle is a multiple of the
effective alignment and at least the requested size; and when the pool
base and the cursor are multiples of the (power-of-two) alignment, the
returned address is a multiple of the alignment as well. -/
theorem c6_alignment_contract_amended (a : ShmArena) (size k : Nat)
    (hal : a.config.alignment = 2 ^ k) (hk : k ≤ 63)
    (hnw : size + a.config.alignment - 1 < W)
    (hcur : a.config.alignment ∣ a.alloc_cursor)
    (hbase : a.config.alignment ∣ a.pool_base)
    (hok : (a.allocate size).1.code = Code.kOk) :
    ∃ a1 alloc, a.allocate size = (stOK, a1, some alloc) ∧
      a.config.alignment ∣ alloc.size ∧ size ≤ alloc.size ∧
      a.config.alignment ∣ alloc.addr := by
  obtain ⟨hi, hsz, hcap, heq⟩ := allocate_ok_inv a size hok
  refine ⟨_, _, heq, ?_, ?_, ?_⟩
  · rw [hal]
    exact alignUp_dvd size k hk
  · rw [hal]
    apply alignUp_ge size k hk
    rw [hal] at hnw
    exact hnw
  · have hW : a.config.alignment ∣ W := by
      rw [hal]
      have : (2 : Nat) ^ k ∣ 2 ^ 64 := pow_dvd_pow 2 (by omega)
      simpa [W] using this
    exact (Nat.dvd_mod_iff hW).mpr (Nat.dvd_add hbase hcur)

/-- Concrete arena for the C6 witness: base 8192 and cursor 64, both
multiples of the 64-byte alignment. -/
def arenaC6w : ShmArena :=
  ShmArena.mk true true "" 8192 4096 64 64 1 0 defaultConfig 0

/-- Witness for the amended C6 theorem: a 100-byte request on the
concrete arena; the handle records 128 bytes at address 8256. -/
theorem c6_alignment_contract_amended_witness :
    (arenaC6w.allocate 100).1.code = Code.kOk ∧
    (∃ a1 alloc, arenaC6w.allocate 100 = (stOK, a1, some alloc) ∧
      arenaC6w.config.alignment ∣ alloc.size ∧ 100 ≤ alloc.size ∧
      arenaC6w.config.alignment ∣ alloc.addr) :=
  ⟨by decide,
    c6_alignment_contract_amended arenaC6w 100 6 (by decide) (by decide)
      (by decide) (by decide) (by decide) (by decide)⟩

/-- C9: every successful allocation returns the address base + offset (in
uint64 arithmetic), and translate_offset on the post-allocation arena at
the offset and size recorded in the handle succeeds and yields exactly
that address: the handle offset and address are coherent. -/
theorem c9_alloc_translate_coherent (a : ShmArena) (size : Nat)
    (hok : (a.allocate size).1.code = Code.kOk) :
    ∃ a1 alloc, a.allocate size = (stOK, a1, some alloc) ∧
      alloc.addr = (a.pool_base + alloc.offset) % W ∧
      a1.translateOffset alloc.offset alloc.size = (stOK, some alloc.addr) := by
  obtain ⟨hi, hsz, hcap, heq⟩ := allocate_ok_inv a size hok
  refine ⟨_, _, heq, rfl, ?_⟩
  simp [ShmArena.translateOffset, ShmArena.isValidRange, hi, hcap]

/-- Concrete arena for the C9 witness. -/
def arenaC9 : ShmArena :=
  ShmArena.mk true true "" 4096 1024 0 0 0 0 defaultConfig 0

/-- Witness for C9: a 100-byte allocation on the concrete arena
round-trips through translate_offset. -/
theorem c9_alloc_translate_coherent_witness :
    (arenaC9.allocate 100).1.code = Code.kOk ∧
    (∃ a1 alloc, arenaC9.allocate 100 = (stOK, a1, some alloc) ∧
      alloc.addr = (arenaC9.pool_base + alloc.offset) % W ∧
      a1.translateOffset alloc.offset alloc.size = (stOK, some alloc.addr)) :=
  ⟨by decide, c9_alloc_translate_coherent arenaC9 100 (by decide)⟩

/-- C8: the registry keeps at most one handle per name.  After any
get_or_create call, a second get_or_create with the same name (any
configuration) and an attach with the same name both return exactly the
stored handle and leave the registry untouched, so two calls with the
same name always yield the same handle; and the first call does return a
handle. -/
theorem c8_registry_one_handle_per_name (m : PoolManager) (name : String)
    (c c2 : Config) (pid base pid2 base2 es ss mb : Nat) :
    (m.getOrCreateArena name c pid base).2.1.getOrCreateArena name c2
        pid2 base2 =
      (stOK, (m.getOrCreateArena name c pid base).2.1,
        (m.getOrCreateArena name c pid base).2.2) ∧
    (m.getOrCreateArena name c pid base).2.1.attachArena name es ss mb =
      (stOK, (m.getOrCreateArena name c pid base).2.1,
        (m.getOrCreateArena name c pid base).2.2) ∧
    ((m.getOrCreateArena name c pid base).2.2).isSome = true := by
  cases hl : List.lookup name m.arenas with
  | some h =>
    refine ⟨?_, ?_, ?_⟩ <;>
      simp [PoolManager.getOrCreateArena, PoolManager.attachArena, hl]
  | none =>
    have hini : ¬((mkArena m.next_handle).initArena c pid base).1.code ≠
        Code.kOk := by
      simp [ShmArena.initArena, mkArena, stOK]
    have hself : List.lookup name
        ((name, m.next_handle) :: m.arenas) = some m.next_handle := by
      simp [List.lookup]
    refine ⟨?_, ?_, ?_⟩ <;>
      simp [PoolManager.getOrCreateArena, PoolManager.attachArena, hl, hini,
        hself]

end Mooncake
